import Mathlib

/-!
# Verification of the `ApiService` gateway client (`src/services/api.ts`)

A shallow embedding of the admin dashboard's HTTP gateway client.  JavaScript
values reachable through JSON parsing and through the error-normalisation code
are modelled by `JSValue`; `localStorage` is an association list of string
pairs; the browser `fetch` primitive, `JSON.parse` and `JSON.stringify` are
oracles supplied through an `Env`; `encodeURIComponent` and the
`URLSearchParams` serialisation are modelled concretely (percent encoding over
UTF-8 bytes).  Each method of the `ApiService` class is translated line by
line into a pure state-passing function.
-/

namespace FutureFoods

/-- JavaScript runtime values, as far as the gateway client inspects them:
`undefined`, `null`, booleans, (integral) numbers, strings, arrays and plain
objects.  Objects are association lists in property-insertion order. -/
inductive JSValue where
  | undefined : JSValue
  | null : JSValue
  | bool : Bool → JSValue
  | num : Int → JSValue
  | str : String → JSValue
  | arr : List JSValue → JSValue
  | obj : List (String × JSValue) → JSValue
deriving Repr

/-- JavaScript truthiness (`Boolean(v)`): `undefined`, `null`, `false`, `0`
and `""` are falsy; arrays and objects are always truthy. -/
def truthy : JSValue → Bool
  | .undefined => false
  | .null => false
  | .bool b => b
  | .num n => n != 0
  | .str s => s != ""
  | .arr _ => true
  | .obj _ => true

/-- Lookup of a property in an object's field list (first match). -/
def getField : List (String × JSValue) → String → JSValue
  | [], _ => .undefined
  | kv :: rest, k => if kv.1 = k then kv.2 else getField rest k

/-- Property access `v?.k` / `v.k` as the client uses it: a lookup on plain
objects, `undefined` on every other value (the client only dereferences
non-object values behind a truthiness guard or the optional-chaining `?.`). -/
def getProp : JSValue → String → JSValue
  | .obj fields, k => getField fields k
  | _, _ => .undefined

/-- JavaScript `a && b`: returns `a` when `a` is falsy, else `b`. -/
def jsAnd (a b : JSValue) : JSValue := if truthy a then b else a

/-- JavaScript `a || b`: returns `a` when `a` is truthy, else `b`. -/
def jsOr (a b : JSValue) : JSValue := if truthy a then a else b

/-- `typeof v === "string"`. -/
def isString : JSValue → Bool
  | .str _ => true
  | _ => false

mutual

/-- JavaScript string coercion `String(v)` for the values above. -/
def jsToString : JSValue → String
  | .undefined => "undefined"
  | .null => "null"
  | .bool true => "true"
  | .bool false => "false"
  | .num n => toString n
  | .str s => s
  | .arr xs => jsArrToString xs
  | .obj _ => "[object Object]"
termination_by structural v => v

/-- Array-to-string coercion: elements joined by commas, with `null` and
`undefined` elements rendered empty. -/
def jsArrToString : List JSValue → String
  | [] => ""
  | [.undefined] => ""
  | [.null] => ""
  | [v] => jsToString v
  | .undefined :: rest => "," ++ jsArrToString rest
  | .null :: rest => "," ++ jsArrToString rest
  | v :: rest => jsToString v ++ "," ++ jsArrToString rest
termination_by structural l => l

end

/-! ## Percent encoding (platform `encodeURIComponent` / `URLSearchParams`) -/

/-- Uppercase hexadecimal digit for `n < 16`. -/
def hexDigit (n : Nat) : Char :=
  if n < 10 then Char.ofNat (48 + n) else Char.ofNat (55 + n)

/-- `%XX` escape of one byte value. -/
def percentByte (n : Nat) : String :=
  String.mk ['%', hexDigit (n / 16 % 16), hexDigit (n % 16)]

/-- The UTF-8 bytes of one character, as natural numbers. -/
def utf8Bytes (c : Char) : List Nat :=
  let n := c.toNat
  if n < 128 then [n]
  else if n < 2048 then [192 + n / 64, 128 + n % 64]
  else if n < 65536 then [224 + n / 4096, 128 + n / 64 % 64, 128 + n % 64]
  else [240 + n / 262144, 128 + n / 4096 % 64, 128 + n / 64 % 64, 128 + n % 64]

/-- Characters the `application/x-www-form-urlencoded` serialiser leaves
unescaped: ASCII alphanumerics and `*`, `-`, `.`, `_`. -/
def formUnreserved (c : Char) : Bool :=
  c.isAlphanum || c == '*' || c == '-' || c == '.' || c == '_'

/-- One character under the `URLSearchParams` serialiser: space becomes `+`,
unreserved characters stay, everything else is percent-escaped bytewise. -/
def formEncodeChar (c : Char) : String :=
  if c == ' ' then "+"
  else if formUnreserved c then String.singleton c
  else String.join ((utf8Bytes c).map percentByte)

/-- The `application/x-www-form-urlencoded` string serialiser used by
`URLSearchParams.toString`. -/
def formEncode (s : String) : String :=
  String.join (s.toList.map formEncodeChar)

/-- Characters `encodeURIComponent` leaves unescaped beyond alphanumerics. -/
def uriMarks : List Char := ['-', '_', '.', '!', '~', '*', Char.ofNat 39, '(', ')']

/-- One character under `encodeURIComponent`. -/
def uriEncodeChar (c : Char) : String :=
  if c.isAlphanum || uriMarks.contains c then String.singleton c
  else String.join ((utf8Bytes c).map percentByte)

/-- The platform `encodeURIComponent` function. -/
def encodeURIComponent (s : String) : String :=
  String.join (s.toList.map uriEncodeChar)

/-- Does the first character list start with the second? -/
def charsStartWith : List Char → List Char → Bool
  | _, [] => true
  | [], _ :: _ => false
  | a :: as, b :: bs => a == b && charsStartWith as bs

/-- Does the first character list contain the second as a contiguous run? -/
def charsInclude (s sub : List Char) : Bool :=
  match s with
  | [] => charsStartWith [] sub
  | c :: rest => charsStartWith (c :: rest) sub || charsInclude rest sub

/-- JavaScript `String.prototype.startsWith`. -/
def strStartsWith (s sub : String) : Bool := charsStartWith s.data sub.data

/-- JavaScript `String.prototype.includes`. -/
def strIncludes (s sub : String) : Bool := charsInclude s.data sub.data

/-! ## Browser storage and JavaScript-object association lists -/

/-- `localStorage`: key-value pairs of strings, in insertion order. -/
abbrev Storage := List (String × String)

/-- First-match lookup in an association list: JavaScript property read on
the unique-key lists the client builds. -/
def lookupH : List (String × String) → String → Option String
  | [], _ => none
  | kv :: rest, k => if kv.1 = k then some kv.2 else lookupH rest k

/-- `localStorage.getItem` (`none` models JavaScript `null`). -/
def getItem (s : Storage) (k : String) : Option String := lookupH s k

/-- Assigning key `k` in a JavaScript object / `URLSearchParams.set` /
`localStorage.setItem`: update the value in place when the key exists,
otherwise append the pair at the end. -/
def assocSet : List (String × String) → String → String → List (String × String)
  | [], k, v => [(k, v)]
  | kv :: rest, k, v => if kv.1 = k then (k, v) :: rest else kv :: assocSet rest k v

/-- `localStorage.setItem`. -/
def setItem (s : Storage) (k v : String) : Storage := assocSet s k v

/-- `localStorage.removeItem`. -/
def removeItem : Storage → String → Storage
  | [], _ => []
  | kv :: rest, k => if kv.1 = k then removeItem rest k else kv :: removeItem rest k

/-- Object spread `{ ...base, ...ext }`: every key of `ext` is assigned into
`base`, later entries overriding earlier ones. -/
def spread (base ext : List (String × String)) : List (String × String) :=
  ext.foldl (fun acc kv => assocSet acc kv.1 kv.2) base

/-! ## The gateway client: constants, URL construction -/

/-- `const API_BASE_URL = "http://localhost:5999"` (line 7 of api.ts). -/
def API_BASE_URL : String := "http://localhost:5999"

/-- `private TOKEN_KEY = "authToken"` (line 19). -/
def TOKEN_KEY : String := "authToken"

/-- `private get token()` (lines 21-23). -/
def tokenOf (storage : Storage) : Option String := getItem storage TOKEN_KEY

/-- `private getAuthHeaders()` (lines 25-27): `this.token ? { Authorization:
Bearer ... } : {}` — note the empty string is falsy, so it yields no header. -/
def getAuthHeaders (storage : Storage) : List (String × String) :=
  match tokenOf storage with
  | some t => if t = "" then [] else [("Authorization", "Bearer " ++ t)]
  | none => []

/-- `v === undefined || v === null`, the skip condition of `buildUrl`. -/
def isAbsent : JSValue → Bool
  | .undefined => true
  | .null => true
  | _ => false

/-- The `URLSearchParams` accumulated by `buildUrl` (lines 33-37): for each
entry, absent values are skipped and others are assigned via `sp.set(k,
String(v))`. -/
def spFromEntries (entries : List (String × JSValue)) : List (String × String) :=
  entries.foldl
    (fun sp kv => if isAbsent kv.2 then sp else assocSet sp kv.1 (jsToString kv.2)) []

/-- `URLSearchParams.toString`: `k=v` pairs form-encoded and joined by `&`. -/
def spToString : List (String × String) → String
  | [] => ""
  | [kv] => formEncode kv.1 ++ "=" ++ formEncode kv.2
  | kv :: rest => formEncode kv.1 ++ "=" ++ formEncode kv.2 ++ "&" ++ spToString rest

/-- `private buildUrl(path, qs?)` (lines 29-40). -/
def buildUrl (path : String) (qs : Option (List (String × JSValue))) : String :=
  let url := API_BASE_URL ++ (if strStartsWith path "/" then path else "/" ++ path)
  match qs with
  | none => url
  | some entries =>
    let query := spToString (spFromEntries entries)
    if query = "" then url else url ++ "?" ++ query

/-! ## Responses, parsing, client state, `request` -/

/-- A settled HTTP response as the client observes it: status code, the
`content-type` header (`none` when absent) and the raw body text. -/
structure Response where
  status : Nat
  contentType : Option String
  body : String

/-- `response.headers.get("content-type") || ""` (line 46). -/
def ctOf (r : Response) : String := r.contentType.getD ""

/-- `response.ok`: status in the inclusive range 200-299. -/
def respOk (r : Response) : Bool := 200 ≤ r.status && r.status ≤ 299

/-- What `fetch` does for one call: either it settles with a response, or the
transport rejects with some thrown value. -/
inductive FetchOutcome where
  | success : Response → FetchOutcome
  | failure : JSValue → FetchOutcome

/-- `method`, `headers` and `body` of the `RequestInit` handed to `fetch`. -/
structure FetchConfig where
  method : String
  headers : List (String × String)
  body : Option String

/-- The platform primitives the client calls but does not define:
`JSON.parse` (`none` models a `SyntaxError` throw), `JSON.stringify`, and
`fetch` itself as a function from URL and config to an outcome. -/
structure Env where
  jsonParse : String → Option JSValue
  stringify : JSValue → String
  fetch : String → FetchConfig → FetchOutcome

/-- The `SyntaxError` value thrown by `response.json()` / `JSON.parse` on
malformed input.  It carries no `status` property. -/
def syntaxError : JSValue := .obj [("name", .str "SyntaxError")]

/-- `private parseResponse(response)` (lines 42-58): `undefined` for 204,
`response.json()` (which throws on malformed bodies) when the content type
declares JSON, otherwise a `JSON.parse` attempt on the text with the raw text
as fallback. -/
def parseResponse (env : Env) (r : Response) : Except JSValue JSValue :=
  if r.status = 204 then .ok .undefined
  else if strIncludes (ctOf r) "application/json" then
    match env.jsonParse r.body with
    | some v => .ok v
    | none => .error syntaxError
  else
    match env.jsonParse r.body with
    | some v => .ok v
    | none => .ok (.str r.body)

/-- `window.location`: the parts the client reads. -/
structure Location where
  pathname : String
  search : String

/-- The browser state the client mutates: `localStorage`, the current
location, and the navigation target assigned to `window.location.href`
(`none` while no navigation has been triggered). -/
structure ClientState where
  storage : Storage
  location : Location
  navigatedTo : Option String

/-- The 401 handler body (lines 89-94 and 104-108): remove the token and
navigate to `/login?next=<encoded current path+query>`. -/
def handle401 (st : ClientState) : ClientState :=
  let redirect := encodeURIComponent (st.location.pathname ++ st.location.search)
  { st with
    storage := removeItem st.storage TOKEN_KEY
    navigatedTo := some ("/login?next=" ++ redirect) }

/-- `error?.status === 401` (line 103): strict equality against the number
401 after an optional-chained property read. -/
def statusIs401 (e : JSValue) : Bool :=
  match getProp e "status" with
  | .num n => n == 401
  | _ => false

/-- The error-message normalisation of lines 83-85:
`(data && data.message) || (typeof data === "string" ? data : "An error
occurred")`. -/
def normMessage (data : JSValue) : JSValue :=
  jsOr (jsAnd data (getProp data "message"))
    (if isString data then data else .str "An error occurred")

/-- The options object accepted by `request` (line 62): `RequestInit & { qs }`
restricted to the fields the client reads. -/
structure RequestOptions where
  method : Option String := none
  headers : Option (List (String × String)) := none
  body : Option String := none
  qs : Option (List (String × JSValue)) := none

/-- The headers object of lines 69-73: `{ "Content-Type": "application/json",
...this.getAuthHeaders(), ...(headers || {}) }`. -/
def requestHeaders (storage : Storage) (caller : Option (List (String × String))) :
    List (String × String) :=
  spread (spread [("Content-Type", "application/json")] (getAuthHeaders storage))
    (caller.getD [])

/-- The `config` of lines 67-75 (the trailing `...rest` spread makes an
explicitly supplied method win even over the `|| "GET"` default). -/
def requestConfig (storage : Storage) (opts : RequestOptions) : FetchConfig :=
  { method := opts.method.getD "GET"
    headers := requestHeaders storage opts.headers
    body := opts.body }

/-- What a `request` call does once settled: resolve with data or reject with
a thrown value. -/
inductive RequestResult where
  | success : JSValue → RequestResult
  | error : JSValue → RequestResult

/-- `private request(path, options)` (lines 60-112).  The `try` block fetches
and parses; a non-ok status builds the normalised `{ message, status }` error,
runs the 401 handler, and throws; the surrounding `catch` re-runs the 401
handler on any caught value whose `status` is 401 (including the error just
thrown) and rethrows. -/
def request (env : Env) (st : ClientState) (path : String) (opts : RequestOptions) :
    RequestResult × ClientState :=
  let url := buildUrl path opts.qs
  let config := requestConfig st.storage opts
  match env.fetch url config with
  | .failure e =>
    (.error e, if statusIs401 e then handle401 st else st)
  | .success r =>
    match parseResponse env r with
    | .error pe =>
      (.error pe, if statusIs401 pe then handle401 st else st)
    | .ok data =>
      if respOk r then (.success data, st)
      else
        let err : JSValue := .obj [("message", normMessage data), ("status", .num r.status)]
        let st1 := if r.status = 401 then handle401 st else st
        (.error err, if statusIs401 err then handle401 st1 else st1)

/-! ## Auth and resource wrappers -/

/-- The options `login` passes to `request` (lines 116-119). -/
def loginOpts (env : Env) (email password : String) : RequestOptions :=
  { method := some "POST"
    body := some (env.stringify (.obj [("email", .str email), ("password", .str password)])) }

/-- `async login(email, password)` (lines 115-123): POST to `/auth/login`,
then persist `res.token` under the token key before returning. -/
def login (env : Env) (st : ClientState) (email password : String) :
    RequestResult × ClientState :=
  match request env st "/auth/login" (loginOpts env email password) with
  | (.success res, st') =>
    (.success res,
      { st' with storage := setItem st'.storage TOKEN_KEY (jsToString (getProp res "token")) })
  | (.error e, st') => (.error e, st')

/-- The options `register` passes to `request` (lines 126-132). -/
def registerOpts (env : Env) (name email password : String) : RequestOptions :=
  { method := some "POST"
    body := some (env.stringify
      (.obj [("name", .str name), ("email", .str email), ("password", .str password)])) }

/-- `async register(name, email, password)` (lines 125-135). -/
def register (env : Env) (st : ClientState) (name email password : String) :
    RequestResult × ClientState :=
  match request env st "/auth/register" (registerOpts env name email password) with
  | (.success res, st') =>
    (.success res,
      { st' with storage := setItem st'.storage TOKEN_KEY (jsToString (getProp res "token")) })
  | (.error e, st') => (.error e, st')

/-- The argument object of `getBlogsAdmin` (lines 193-203); `none` models an
omitted / `undefined` field. -/
structure BlogsAdminArgs where
  includeInactive : Option Bool := none
  allStatus : Option Bool := none
  page : Option Int := none
  limit : Option Int := none

/-- The `qs` object of lines 211-216: `String(!!includeInactive)`,
`String(!!allStatus)`, and `page`/`limit` with destructuring defaults 1/50. -/
def getBlogsAdminQs (a : BlogsAdminArgs) : List (String × JSValue) :=
  [("includeInactive", .str (jsToString (.bool (a.includeInactive.getD false)))),
   ("allStatus", .str (jsToString (.bool (a.allStatus.getD false)))),
   ("page", .num (a.page.getD 1)),
   ("limit", .num (a.limit.getD 50))]

/-- `async getBlogsAdmin(args)` (lines 193-218). -/
def getBlogsAdmin (env : Env) (st : ClientState) (a : BlogsAdminArgs) :
    RequestResult × ClientState :=
  request env st "/blogs" { qs := some (getBlogsAdminQs a) }

/-- The URL `getBlogsAdmin` hands to `fetch`. -/
def getBlogsAdminUrl (a : BlogsAdminArgs) : String :=
  buildUrl "/blogs" (some (getBlogsAdminQs a))

/-- The filter of line 261: `v !== undefined && v !== null && v !== ""`. -/
def keepRecipeParam : JSValue → Bool
  | .undefined => false
  | .null => false
  | .str s => s != ""
  | _ => true

/-- The query string `getRecipes` builds itself (lines 259-266): filter the
entries, reduce them into an object via `String(v)`, then serialise through
`URLSearchParams`. -/
def getRecipesQs (params : List (String × JSValue)) : String :=
  let reduced := (params.filter (fun kv => keepRecipeParam kv.2)).foldl
    (fun acc kv => assocSet acc kv.1 (jsToString kv.2)) []
  spToString reduced

/-- The path argument of line 268: `/recipes` plus `?qs` when non-empty. -/
def getRecipesPath (params : List (String × JSValue)) : String :=
  "/recipes" ++ (if getRecipesQs params = "" then "" else "?" ++ getRecipesQs params)

/-- `async getRecipes(params)` (lines 258-269): note the query is baked into
the path and `request` receives no `qs` option. -/
def getRecipes (env : Env) (st : ClientState) (params : List (String × JSValue)) :
    RequestResult × ClientState :=
  request env st (getRecipesPath params) {}

/-- The URL `getRecipes` hands to `fetch`. -/
def getRecipesUrl (params : List (String × JSValue)) : String :=
  buildUrl (getRecipesPath params) none

/-- `v === ""`: strict equality against the empty string. -/
def isEmptyStrVal : JSValue → Bool
  | .str s => s == ""
  | _ => false

/-! ## Specification-side definitions (for refinement statements) -/

/-- The error-message rule as the (amended) specification words it: the parsed
body's `message` field when present and truthy, else the parsed body itself
when it is a string, else the generic string. -/
def spec_errMessage : JSValue → JSValue
  | .obj fs =>
    if truthy (getField fs "message") then getField fs "message"
    else .str "An error occurred"
  | .str s => .str s
  | _ => .str "An error occurred"

/-- `buildUrl` as the specification words it: base origin plus slash-normalised
path, then - only when non-empty - `?` and the encoded query obtained by
keeping exactly the entries whose value is not absent. -/
def spec_buildUrl (path : String) (qs : Option (List (String × JSValue))) : String :=
  let url := API_BASE_URL ++ (if strStartsWith path "/" then path else "/" ++ path)
  match qs with
  | none => url
  | some entries =>
    let query := spToString
      ((entries.filter (fun kv => !isAbsent kv.2)).map (fun kv => (kv.1, jsToString kv.2)))
    if query = "" then url else url ++ "?" ++ query

/-! ## Concrete fixtures used by witnesses and counterexamples -/

/-- An environment with a constant fetch outcome and a fixed parse oracle. -/
def constEnv (out : FetchOutcome) (parse : String → Option JSValue) : Env :=
  { jsonParse := parse, stringify := fun _ => "", fetch := fun _ _ => out }

/-- A current location `/admin?tab=2`. -/
def testLoc : Location := { pathname := "/admin", search := "?tab=2" }

/-- A state whose storage holds the session token `tok`. -/
def stTok : ClientState :=
  { storage := [("authToken", "tok")], location := testLoc, navigatedTo := none }

/-- A state with empty storage. -/
def stEmpty : ClientState :=
  { storage := [], location := testLoc, navigatedTo := none }


/-! ## Lemmas about association lists and storage -/

lemma lookupH_assocSet_self (l : List (String × String)) (k v : String) :
    lookupH (assocSet l k v) k = some v := by
  induction l with
  | nil => simp [assocSet, lookupH]
  | cons kv rest ih => by_cases h : kv.1 = k <;> simp [assocSet, lookupH, h, ih]

lemma lookupH_assocSet_ne (l : List (String × String)) (k k' v : String)
    (hne : k' ≠ k) : lookupH (assocSet l k v) k' = lookupH l k' := by
  induction l with
  | nil => simp [assocSet, lookupH, Ne.symm hne]
  | cons kv rest ih =>
    by_cases h : kv.1 = k
    · simp [assocSet, lookupH, h, Ne.symm hne]
    · simp [assocSet, lookupH, h, ih]

lemma lookupH_eq_none_of_not_mem (l : List (String × String)) (k : String)
    (h : k ∉ l.map Prod.fst) : lookupH l k = none := by
  induction l with
  | nil => rfl
  | cons kv rest ih =>
    simp only [List.map_cons, List.mem_cons, not_or] at h
    simp [lookupH, Ne.symm h.1, ih h.2]

lemma lookupH_spread_none (base ext : List (String × String)) (k : String)
    (h : lookupH ext k = none) : lookupH (spread base ext) k = lookupH base k := by
  induction ext generalizing base with
  | nil => rfl
  | cons kv rest ih =>
    by_cases hk : kv.1 = k
    · simp [lookupH, hk] at h
    · simp only [lookupH, hk, if_false] at h
      have hstep : spread base (kv :: rest) = spread (assocSet base kv.1 kv.2) rest := rfl
      rw [hstep, ih _ h, lookupH_assocSet_ne _ _ _ _ (Ne.symm hk)]

lemma lookupH_spread_some (base ext : List (String × String)) (k v : String)
    (hnd : (ext.map Prod.fst).Nodup) (h : lookupH ext k = some v) :
    lookupH (spread base ext) k = some v := by
  induction ext generalizing base with
  | nil => simp [lookupH] at h
  | cons kv rest ih =>
    have hstep : spread base (kv :: rest) = spread (assocSet base kv.1 kv.2) rest := rfl
    rw [hstep]
    simp only [List.map_cons, List.nodup_cons] at hnd
    by_cases hk : kv.1 = k
    · simp only [lookupH, hk, if_true] at h
      have hrest : lookupH rest k = none := by
        apply lookupH_eq_none_of_not_mem
        rw [← hk]
        exact hnd.1
      rw [lookupH_spread_none _ _ _ hrest, ← hk, lookupH_assocSet_self]
      simpa using h
    · simp only [lookupH, hk, if_false] at h
      exact ih _ hnd.2 h

lemma lookupH_removeItem_self (s : Storage) (k : String) :
    lookupH (removeItem s k) k = none := by
  induction s with
  | nil => rfl
  | cons kv rest ih => by_cases h : kv.1 = k <;> simp [removeItem, h, lookupH, ih]

/-! ## String and serialisation lemmas -/

lemma append_ne_empty_right (a b : String) (hb : b ≠ "") : a ++ b ≠ "" := by
  intro hE
  apply hb
  have hd := congrArg String.data hE
  rw [String.data_append] at hd
  have : b.data = [] := (List.append_eq_nil.mp hd).2
  exact String.ext this

lemma append_ne_empty_left (a b : String) (ha : a ≠ "") : a ++ b ≠ "" := by
  intro hE
  apply ha
  have hd := congrArg String.data hE
  rw [String.data_append] at hd
  have : a.data = [] := (List.append_eq_nil.mp hd).1
  exact String.ext this

lemma spToString_cons_ne_empty (kv : String × String) (sp : List (String × String)) :
    spToString (kv :: sp) ≠ "" := by
  cases sp with
  | nil =>
    show formEncode kv.1 ++ "=" ++ formEncode kv.2 ≠ ""
    exact append_ne_empty_left _ _ (append_ne_empty_right _ _ (by decide))
  | cons kv2 rest =>
    show formEncode kv.1 ++ "=" ++ formEncode kv.2 ++ "&" ++ spToString (kv2 :: rest) ≠ ""
    exact append_ne_empty_left _ _
      (append_ne_empty_left _ _ (append_ne_empty_left _ _ (append_ne_empty_right _ _ (by decide))))

/-! ## Lemmas about response parsing and the 401 predicate -/

lemma parseResponse_error_eq (env : Env) (r : Response) (pe : JSValue)
    (h : parseResponse env r = .error pe) : pe = syntaxError := by
  by_cases h204 : r.status = 204
  · simp [parseResponse, h204] at h
  · by_cases hct : strIncludes (ctOf r) "application/json"
    · cases hj : env.jsonParse r.body <;> simp [parseResponse, h204, hct, hj] at h
      exact h.symm
    · cases hj : env.jsonParse r.body <;> simp [parseResponse, h204, hct, hj] at h

lemma statusIs401_errObj (m : JSValue) (n : Int) :
    statusIs401 (.obj [("message", m), ("status", .num n)]) = (n == 401) := rfl

lemma statusIs401_syntaxError : statusIs401 syntaxError = false := rfl

lemma natCast_beq_401 (s : Nat) : (((s : Int)) == 401) = (s == 401) := by
  by_cases h : s = 401
  · subst h
    decide
  · have h1 : ((s : Int) == 401) = false := beq_eq_false_iff_ne.mpr (by exact_mod_cast h)
    have h2 : (s == 401) = false := beq_eq_false_iff_ne.mpr h
    rw [h1, h2]

/-! ## The error-message normalisation, characterised -/

lemma normMessage_eq_spec (d : JSValue) : normMessage d = spec_errMessage d := by
  cases d with
  | obj fs => rfl
  | str s =>
    by_cases h : s = "" <;>
      simp [normMessage, spec_errMessage, jsAnd, jsOr, truthy, isString, getProp, h]
  | num n =>
    by_cases h : n = 0 <;>
      simp [normMessage, spec_errMessage, jsAnd, jsOr, truthy, isString, getProp, h]
  | bool b => cases b <;> rfl
  | arr xs => rfl
  | null => rfl
  | undefined => rfl

/-! ## `spFromEntries` on unique-key entry lists -/

lemma assocSet_eq_append (l : List (String × String)) (k v : String)
    (h : k ∉ l.map Prod.fst) : assocSet l k v = l ++ [(k, v)] := by
  induction l with
  | nil => rfl
  | cons kv rest ih =>
    simp only [List.map_cons, List.mem_cons, not_or] at h
    simp [assocSet, Ne.symm h.1, ih h.2]

lemma spFromEntries_go (entries : List (String × JSValue))
    (acc : List (String × String))
    (hnd : (entries.map Prod.fst).Nodup)
    (hdisj : ∀ k, k ∈ entries.map Prod.fst → k ∉ acc.map Prod.fst) :
    entries.foldl
        (fun sp kv => if isAbsent kv.2 then sp else assocSet sp kv.1 (jsToString kv.2)) acc
      = acc ++ (entries.filter (fun kv => !isAbsent kv.2)).map
          (fun kv => (kv.1, jsToString kv.2)) := by
  induction entries generalizing acc with
  | nil => simp
  | cons kv rest ih =>
    simp only [List.map_cons, List.nodup_cons] at hnd
    rw [List.foldl_cons]
    by_cases hab : isAbsent kv.2
    · rw [if_pos hab, ih acc hnd.2 (fun k hk => hdisj k (by simp [hk]))]
      simp [List.filter_cons, hab]
    · rw [if_neg hab]
      have hkacc : kv.1 ∉ acc.map Prod.fst := hdisj kv.1 (by simp)
      have hdisj2 : ∀ k, k ∈ rest.map Prod.fst →
          k ∉ (acc ++ [(kv.1, jsToString kv.2)]).map Prod.fst := by
        intro k hk
        have h1 : k ∉ acc.map Prod.fst := hdisj k (by simp [hk])
        have h2 : k ≠ kv.1 := fun hkk => hnd.1 (hkk ▸ hk)
        simp [List.map_append, h1, h2]
      rw [assocSet_eq_append _ _ _ hkacc, ih _ hnd.2 hdisj2]
      simp [List.filter_cons, hab, List.append_assoc]

lemma spFromEntries_eq (entries : List (String × JSValue))
    (hnd : (entries.map Prod.fst).Nodup) :
    spFromEntries entries
      = (entries.filter (fun kv => !isAbsent kv.2)).map (fun kv => (kv.1, jsToString kv.2)) := by
  have h := spFromEntries_go entries [] hnd (by simp)
  simpa [spFromEntries] using h

/-! ## `getRecipes` query construction -/

lemma keep_and_not_empty (v : JSValue) :
    (keepRecipeParam v && !isEmptyStrVal v) = keepRecipeParam v := by
  cases v <;> simp [keepRecipeParam, isEmptyStrVal]

lemma getRecipesQs_drop_empty (params : List (String × JSValue)) :
    getRecipesQs (params.filter (fun kv => !isEmptyStrVal kv.2)) = getRecipesQs params := by
  unfold getRecipesQs
  have hfilters :
      (params.filter (fun kv => !isEmptyStrVal kv.2)).filter (fun kv => keepRecipeParam kv.2)
        = params.filter (fun kv => keepRecipeParam kv.2) := by
    rw [List.filter_filter]
    exact List.filter_congr (fun kv _ => keep_and_not_empty kv.2)
  rw [hfilters]

/-! ## How `request` behaves in each of its four settled shapes -/

lemma request_fetch_failure (env : Env) (st : ClientState) (path : String)
    (opts : RequestOptions) (e : JSValue)
    (hf : env.fetch (buildUrl path opts.qs) (requestConfig st.storage opts) = .failure e) :
    request env st path opts = (.error e, if statusIs401 e then handle401 st else st) := by
  simp only [request, hf]

lemma request_parse_error (env : Env) (st : ClientState) (path : String)
    (opts : RequestOptions) (r : Response) (pe : JSValue)
    (hf : env.fetch (buildUrl path opts.qs) (requestConfig st.storage opts) = .success r)
    (hp : parseResponse env r = .error pe) :
    request env st path opts = (.error syntaxError, st) := by
  have hpe := parseResponse_error_eq env r pe hp
  subst hpe
  simp only [request, hf, hp]
  simp [statusIs401_syntaxError]

lemma request_ok (env : Env) (st : ClientState) (path : String)
    (opts : RequestOptions) (r : Response) (data : JSValue)
    (hf : env.fetch (buildUrl path opts.qs) (requestConfig st.storage opts) = .success r)
    (hp : parseResponse env r = .ok data) (hok : respOk r = true) :
    request env st path opts = (.success data, st) := by
  simp only [request, hf, hp]
  simp [hok]

lemma request_httpError (env : Env) (st : ClientState) (path : String)
    (opts : RequestOptions) (r : Response) (data : JSValue)
    (hf : env.fetch (buildUrl path opts.qs) (requestConfig st.storage opts) = .success r)
    (hp : parseResponse env r = .ok data) (hok : respOk r = false) :
    request env st path opts =
      (.error (.obj [("message", normMessage data), ("status", .num r.status)]),
        if r.status = 401 then handle401 (handle401 st) else st) := by
  simp only [request, hf, hp]
  by_cases h4 : r.status = 401
  · have hb : ((r.status : Int) == 401) = true := by
      rw [natCast_beq_401]
      exact beq_iff_eq.mpr h4
    simp [hok, h4, statusIs401_errObj, hb]
  · have hb : ((r.status : Int) == 401) = false := by
      rw [natCast_beq_401]
      exact beq_eq_false_iff_ne.mpr h4
    simp [hok, h4, statusIs401_errObj, hb]

/-! ## Observables of the 401 handler -/

lemma getItem_handle401 (st : ClientState) :
    getItem (handle401 st).storage TOKEN_KEY = none :=
  lookupH_removeItem_self _ _

lemma getItem_handle401_handle401 (st : ClientState) :
    getItem (handle401 (handle401 st)).storage TOKEN_KEY = none :=
  lookupH_removeItem_self _ _

lemma handle401_location (st : ClientState) : (handle401 st).location = st.location := rfl

lemma navigatedTo_handle401 (st : ClientState) :
    (handle401 st).navigatedTo
      = some ("/login?next=" ++ encodeURIComponent (st.location.pathname ++ st.location.search)) :=
  rfl

lemma navigatedTo_handle401_handle401 (st : ClientState) :
    (handle401 (handle401 st)).navigatedTo
      = some ("/login?next=" ++ encodeURIComponent (st.location.pathname ++ st.location.search)) :=
  rfl

/-! ## Claim theorems -/

/-- C4: `buildUrl(path, query)` is a pure total function returning the fixed
base origin concatenated with the slash-normalised path, followed - only when
the resulting query string is non-empty - by `?` and the URL-encoded query
built from the mapping, skipping every entry whose value is absent
(`undefined` or `null`); in particular `buildUrl("/x", {a: 1, b: undefined})`
yields a URL with `a=1` present and no `b` parameter. -/
theorem c4_buildUrl_spec (path : String) (entries : List (String × JSValue))
    (hnd : (entries.map Prod.fst).Nodup) :
    buildUrl path (some entries) = spec_buildUrl path (some entries)
    ∧ buildUrl path none = spec_buildUrl path none
    ∧ buildUrl "/x" (some [("a", .num 1), ("b", .undefined)]) = "http://localhost:5999/x?a=1" := by
  refine ⟨?_, rfl, rfl⟩
  simp only [buildUrl, spec_buildUrl]
  rw [spFromEntries_eq entries hnd]

/-- Witness for C4 at `path = "/p"`, `entries = [("a", 2)]`. -/
theorem c4_buildUrl_spec_witness :
    buildUrl "/p" (some [("a", .num 2)]) = spec_buildUrl "/p" (some [("a", .num 2)])
    ∧ buildUrl "/p" none = spec_buildUrl "/p" none
    ∧ buildUrl "/x" (some [("a", .num 1), ("b", .undefined)]) = "http://localhost:5999/x?a=1" :=
  c4_buildUrl_spec "/p" [("a", .num 2)] (by decide)

/-- C9: for every argument object, `getBlogsAdmin` sends all four query
parameters on `/blogs`: the two flags are coerced to exactly the strings
`"true"`/`"false"` (an omitted flag becomes `"false"` rather than being
dropped), and `page`/`limit` default to 1 and 50 when omitted. -/
theorem c9_getBlogsAdmin_params (a : BlogsAdminArgs) :
    spFromEntries (getBlogsAdminQs a) =
      [("includeInactive", if a.includeInactive.getD false then "true" else "false"),
       ("allStatus", if a.allStatus.getD false then "true" else "false"),
       ("page", toString (a.page.getD 1)),
       ("limit", toString (a.limit.getD 50))]
    ∧ getBlogsAdminUrl a =
        "http://localhost:5999/blogs" ++ "?" ++
          spToString
            [("includeInactive", if a.includeInactive.getD false then "true" else "false"),
             ("allStatus", if a.allStatus.getD false then "true" else "false"),
             ("page", toString (a.page.getD 1)),
             ("limit", toString (a.limit.getD 50))] := by
  obtain ⟨ii, as, p, l⟩ := a
  cases ii with
  | none =>
    cases as with
    | none => exact ⟨rfl, rfl⟩
    | some b => cases b <;> exact ⟨rfl, rfl⟩
  | some b =>
    cases b <;> cases as with
    | none => exact ⟨rfl, rfl⟩
    | some b2 => cases b2 <;> exact ⟨rfl, rfl⟩

/-- C10: `getRecipes` builds its query itself and drops every entry whose
value is `undefined`, `null` or the empty string (so an empty-string filter
value never affects the `/recipes` URL), whereas `buildUrl` drops only
`undefined`/`null` and keeps empty-string values. -/
theorem c10_getRecipes_filtering :
    (∀ v, keepRecipeParam v = (!isAbsent v && !isEmptyStrVal v))
    ∧ (∀ params : List (String × JSValue),
        getRecipesUrl (params.filter (fun kv => !isEmptyStrVal kv.2)) = getRecipesUrl params)
    ∧ buildUrl "/recipes" (some [("q", .str "")]) = "http://localhost:5999/recipes?q="
    ∧ getRecipesUrl [("q", .str "")] = "http://localhost:5999/recipes" := by
  refine ⟨?_, ?_, rfl, rfl⟩
  · intro v
    cases v <;> rfl
  · intro params
    unfold getRecipesUrl getRecipesPath
    rw [getRecipesQs_drop_empty]

/-- C5: a response with HTTP status 204 makes `request` resolve with the
`undefined` result and the original state; moreover `parseResponse` on any
204 response yields `undefined` for every parse oracle and body, so no body
parsing is ever attempted. -/
theorem c5_status204 (env : Env) (st : ClientState) (path : String)
    (opts : RequestOptions) (r : Response) (env2 : Env) (r2 : Response)
    (hf : env.fetch (buildUrl path opts.qs) (requestConfig st.storage opts) = .success r)
    (h204 : r.status = 204) (h204b : r2.status = 204) :
    request env st path opts = (.success .undefined, st)
    ∧ parseResponse env2 r2 = .ok .undefined := by
  have hp : parseResponse env r = .ok .undefined := by simp [parseResponse, h204]
  have hok : respOk r = true := by simp [respOk, h204]
  exact ⟨request_ok env st path opts r .undefined hf hp hok, by simp [parseResponse, h204b]⟩

/-- Witness for C5: a 204 response with a JSON content type and garbage body
resolves with `undefined`, untouched state, under an always-failing parser. -/
theorem c5_status204_witness :
    request (constEnv (.success { status := 204, contentType := some "application/json", body := "zz" })
        (fun _ => none)) stTok "/orders" {} = (.success .undefined, stTok)
    ∧ parseResponse (constEnv (.success { status := 204, contentType := some "application/json", body := "zz" })
        (fun _ => none)) { status := 204, contentType := some "text/plain", body := "yy" } = .ok .undefined :=
  c5_status204 _ stTok "/orders" {}
    { status := 204, contentType := some "application/json", body := "zz" } _
    { status := 204, contentType := some "text/plain", body := "yy" } rfl rfl rfl

/-- C6: the JSON-parse-then-raw-text fallback applies only to bodies whose
content type does not declare `application/json`; a declared-JSON body that
fails to parse throws the parse error itself, which propagates through
`request` un-normalised and with no text fallback and no state change. -/
theorem c6_parse_fallback (env : Env) (st : ClientState) (path : String)
    (opts : RequestOptions) (r r2 : Response)
    (hct : strIncludes (ctOf r) "application/json" = true)
    (h204 : r.status ≠ 204)
    (hjp : env.jsonParse r.body = none)
    (hf : env.fetch (buildUrl path opts.qs) (requestConfig st.storage opts) = .success r)
    (hct2 : strIncludes (ctOf r2) "application/json" = false)
    (h204b : r2.status ≠ 204)
    (hjp2 : env.jsonParse r2.body = none) :
    request env st path opts = (.error syntaxError, st)
    ∧ parseResponse env r2 = .ok (.str r2.body) := by
  constructor
  · have hp : parseResponse env r = .error syntaxError := by
      simp [parseResponse, h204, hct, hjp]
    exact request_parse_error env st path opts r syntaxError hf hp
  · simp [parseResponse, h204b, hct2, hjp2]

/-- Witness for C6: a 500 response declaring JSON with an unparseable body
rejects with the `SyntaxError` and leaves the state unchanged, while the same
body under `text/plain` parses to the raw text. -/
theorem c6_parse_fallback_witness :
    request (constEnv (.success { status := 500, contentType := some "application/json", body := "nonsense" })
        (fun _ => none)) stTok "/products" {} = (.error syntaxError, stTok)
    ∧ parseResponse (constEnv (.success { status := 500, contentType := some "application/json", body := "nonsense" })
        (fun _ => none)) { status := 500, contentType := some "text/plain", body := "nonsense" }
      = .ok (.str "nonsense") :=
  c6_parse_fallback _ stTok "/products" {}
    { status := 500, contentType := some "application/json", body := "nonsense" }
    { status := 500, contentType := some "text/plain", body := "nonsense" }
    rfl (by decide) rfl rfl rfl (by decide) rfl

/-- C8: the gateway client's frame - for every call outcome other than a 401
(success, a non-401 HTTP error via the normalised throw, a parse error, or a
transport error without status 401) the stored state (storage and location)
is returned unchanged, and a failed `login` adds no further state change
beyond what `request` did. -/
theorem c8_frame (env : Env) (st : ClientState) (path : String) (opts : RequestOptions)
    (r : Response) (env2 : Env) (st2 : ClientState) (path2 : String) (opts2 : RequestOptions)
    (e : JSValue) (env3 : Env) (st3 : ClientState) (email password : String)
    (e3 : JSValue) (st3' : ClientState)
    (hf : env.fetch (buildUrl path opts.qs) (requestConfig st.storage opts) = .success r)
    (h401 : r.status ≠ 401)
    (hf2 : env2.fetch (buildUrl path2 opts2.qs) (requestConfig st2.storage opts2) = .failure e)
    (he : statusIs401 e = false)
    (hreq3 : request env3 st3 "/auth/login" (loginOpts env3 email password) = (.error e3, st3')) :
    (request env st path opts).2 = st
    ∧ (request env2 st2 path2 opts2).2 = st2
    ∧ login env3 st3 email password = (.error e3, st3') := by
  refine ⟨?_, ?_, ?_⟩
  · cases hp : parseResponse env r with
    | error pe => rw [request_parse_error env st path opts r pe hf hp]
    | ok data =>
      by_cases hok : respOk r
      · rw [request_ok env st path opts r data hf hp hok]
      · rw [request_httpError env st path opts r data hf hp (by simpa using hok)]
        simp [h401]
  · rw [request_fetch_failure env2 st2 path2 opts2 e hf2]
    simp [he]
  · simp only [login, hreq3]

/-- Witness for C8: a successful fetch, a non-401 transport failure and a
failing `login` all leave the client state untouched. -/
theorem c8_frame_witness :
    (request (constEnv (.success { status := 200, contentType := some "application/json", body := "b" })
        (fun _ => some .null)) stTok "/orders" {}).2 = stTok
    ∧ (request (constEnv (.failure .null) (fun _ => none)) stTok "/orders" {}).2 = stTok
    ∧ login (constEnv (.failure .null) (fun _ => none)) stTok "e" "p" = (.error .null, stTok) :=
  c8_frame _ stTok "/orders" {}
    { status := 200, contentType := some "application/json", body := "b" }
    _ stTok "/orders" {} .null _ stTok "e" "p" .null stTok
    rfl (by decide) rfl rfl rfl

/-- `getAuthHeaders` never produces a `Content-Type` entry: it is either
empty or the single `Authorization` pair. -/
lemma getAuthHeaders_ct_none (storage : Storage) :
    lookupH (getAuthHeaders storage) "Content-Type" = none := by
  unfold getAuthHeaders
  cases tokenOf storage with
  | none => rfl
  | some t => by_cases h : t = "" <;> simp [h, lookupH]

/-- C1 counterexample: the caller-supplied headers are spread last, so a
caller-supplied `Authorization` header *does* override the bearer header
derived from the stored token, contradicting the claim that caller headers
never override it. -/
theorem c1_counterexample :
    lookupH (requestHeaders [("authToken", "tok")] (some [("Authorization", "Bearer forged")]))
        "Authorization" = some "Bearer forged"
    ∧ (some "Bearer forged" : Option String) ≠ some ("Bearer " ++ "tok") :=
  ⟨rfl, by decide⟩

/-- C1 (amended): the headers are built by spreading the default
`Content-Type: application/json`, then the bearer header (present exactly when
a non-empty token is stored), then the caller headers, so caller headers -
spread last - override both `Content-Type` and `Authorization` whenever they
specify those keys (regardless of the stored token), while keys the caller
does not supply keep the default content type and the token-derived
authorization. -/
theorem c1_headers_amended (storage storage2 : Storage)
    (caller : List (String × String)) (k v t : String)
    (hnd : (caller.map Prod.fst).Nodup) :
    (lookupH caller k = some v →
      lookupH (requestHeaders storage (some caller)) k = some v)
    ∧ (lookupH caller "Authorization" = some v →
      lookupH (requestHeaders storage (some caller)) "Authorization" = some v)
    ∧ (lookupH caller "Content-Type" = some v →
      lookupH (requestHeaders storage (some caller)) "Content-Type" = some v)
    ∧ (tokenOf storage = some t → t ≠ "" → lookupH caller "Authorization" = none →
      lookupH (requestHeaders storage (some caller)) "Authorization" = some ("Bearer " ++ t))
    ∧ (tokenOf storage2 = none → lookupH caller "Authorization" = none →
      lookupH (requestHeaders storage2 (some caller)) "Authorization" = none)
    ∧ (lookupH caller "Content-Type" = none →
      lookupH (requestHeaders storage (some caller)) "Content-Type" = some "application/json") := by
  refine ⟨?_, ?_, ?_, ?_, ?_, ?_⟩
  · intro hkv
    exact lookupH_spread_some _ caller k v hnd hkv
  · intro hkv
    exact lookupH_spread_some _ caller _ v hnd hkv
  · intro hkv
    exact lookupH_spread_some _ caller _ v hnd hkv
  · intro htok hte hnoAuth
    have hauth : getAuthHeaders storage = [("Authorization", "Bearer " ++ t)] := by
      simp [getAuthHeaders, htok, hte]
    show lookupH (spread (spread [("Content-Type", "application/json")]
        (getAuthHeaders storage)) caller) "Authorization" = some ("Bearer " ++ t)
    rw [lookupH_spread_none _ _ _ hnoAuth, hauth]
    rfl
  · intro htok2 hnoAuth
    have hauth2 : getAuthHeaders storage2 = [] := by
      simp [getAuthHeaders, htok2]
    show lookupH (spread (spread [("Content-Type", "application/json")]
        (getAuthHeaders storage2)) caller) "Authorization" = none
    rw [lookupH_spread_none _ _ _ hnoAuth, hauth2]
    rfl
  · intro hnoCT
    show lookupH (spread (spread [("Content-Type", "application/json")]
        (getAuthHeaders storage)) caller) "Content-Type" = some "application/json"
    rw [lookupH_spread_none _ _ _ hnoCT,
      lookupH_spread_none _ _ _ (getAuthHeaders_ct_none storage)]
    rfl

/-- Witness for the amended C1: with token `tok` stored, a caller-supplied
`Authorization` or `Content-Type` header wins, a custom caller header is kept,
and the defaults apply when the caller omits those keys. -/
theorem c1_headers_amended_witness :
    lookupH (requestHeaders [("authToken", "tok")] (some [("X-Custom", "7")])) "X-Custom" = some "7"
    ∧ lookupH (requestHeaders [("authToken", "tok")] (some [("Authorization", "forged")]))
        "Authorization" = some "forged"
    ∧ lookupH (requestHeaders [("authToken", "tok")] (some [("Content-Type", "text/xml")]))
        "Content-Type" = some "text/xml"
    ∧ lookupH (requestHeaders [("authToken", "tok")] (some [("X-Custom", "7")])) "Authorization"
        = some ("Bearer " ++ "tok")
    ∧ lookupH (requestHeaders [] (some [("X-Custom", "7")])) "Authorization" = none
    ∧ lookupH (requestHeaders [("authToken", "tok")] (some [("X-Custom", "7")])) "Content-Type"
        = some "application/json" := by
  refine ⟨?_, ?_, ?_, ?_, ?_, ?_⟩
  · exact (c1_headers_amended [("authToken", "tok")] [] [("X-Custom", "7")] "X-Custom" "7" "tok"
      (by decide)).1 rfl
  · exact (c1_headers_amended [("authToken", "tok")] [] [("Authorization", "forged")]
      "Authorization" "forged" "tok" (by decide)).2.1 rfl
  · exact (c1_headers_amended [("authToken", "tok")] [] [("Content-Type", "text/xml")]
      "Content-Type" "text/xml" "tok" (by decide)).2.2.1 rfl
  · exact (c1_headers_amended [("authToken", "tok")] [] [("X-Custom", "7")] "X-Custom" "7" "tok"
      (by decide)).2.2.2.1 rfl (by decide) rfl
  · exact (c1_headers_amended [("authToken", "tok")] [] [("X-Custom", "7")] "X-Custom" "7" "tok"
      (by decide)).2.2.2.2.1 rfl rfl
  · exact (c1_headers_amended [("authToken", "tok")] [] [("X-Custom", "7")] "X-Custom" "7" "tok"
      (by decide)).2.2.2.2.2 rfl

/-- C2 counterexample: a 401 response that declares JSON but whose body fails
to parse throws from parsing before the 401 handler runs, so the token stays
in storage and no navigation happens - contradicting the claim that every 401
response clears the token and redirects. -/
theorem c2_counterexample :
    getItem (request (constEnv
        (.success { status := 401, contentType := some "application/json", body := "bad" })
        (fun _ => none)) stTok "/categories" {}).2.storage TOKEN_KEY = some "tok"
    ∧ (request (constEnv
        (.success { status := 401, contentType := some "application/json", body := "bad" })
        (fun _ => none)) stTok "/categories" {}).2.navigatedTo = none :=
  ⟨rfl, rfl⟩

/-- C2 (amended): for every request whose response has status exactly 401 and
whose body parsing succeeds, and for every transport error already carrying
status 401, the client removes the stored token and navigates to
`/login?next=<url-encoded path+query>` - regardless of endpoint. -/
theorem c2_unauthorized_amended (env : Env) (st : ClientState) (path : String)
    (opts : RequestOptions) (r : Response) (data : JSValue)
    (env2 : Env) (st2 : ClientState) (path2 : String) (opts2 : RequestOptions) (e : JSValue)
    (hf : env.fetch (buildUrl path opts.qs) (requestConfig st.storage opts) = .success r)
    (h401 : r.status = 401)
    (hp : parseResponse env r = .ok data)
    (hf2 : env2.fetch (buildUrl path2 opts2.qs) (requestConfig st2.storage opts2) = .failure e)
    (he : statusIs401 e = true) :
    getItem (request env st path opts).2.storage TOKEN_KEY = none
    ∧ (request env st path opts).2.navigatedTo
        = some ("/login?next=" ++ encodeURIComponent (st.location.pathname ++ st.location.search))
    ∧ getItem (request env2 st2 path2 opts2).2.storage TOKEN_KEY = none
    ∧ (request env2 st2 path2 opts2).2.navigatedTo
        = some ("/login?next=" ++ encodeURIComponent (st2.location.pathname ++ st2.location.search)) := by
  have hok : respOk r = false := by simp [respOk, h401]
  have hreq := request_httpError env st path opts r data hf hp hok
  have hreq2 := request_fetch_failure env2 st2 path2 opts2 e hf2
  refine ⟨?_, ?_, ?_, ?_⟩ <;>
    simp [hreq, hreq2, h401, he, getItem_handle401_handle401,
      navigatedTo_handle401_handle401, getItem_handle401, navigatedTo_handle401,
      handle401_location]

/-- Witness for the amended C2: a parsed 401 response and a rethrown 401 error
object both clear the token and set the login redirect. -/
theorem c2_unauthorized_amended_witness :
    getItem (request (constEnv
        (.success { status := 401, contentType := some "application/json", body := "denied" })
        (fun _ => some (.obj [("message", .str "No")]))) stTok "/orders" {}).2.storage TOKEN_KEY = none
    ∧ (request (constEnv
        (.success { status := 401, contentType := some "application/json", body := "denied" })
        (fun _ => some (.obj [("message", .str "No")]))) stTok "/orders" {}).2.navigatedTo
        = some ("/login?next=" ++ encodeURIComponent (stTok.location.pathname ++ stTok.location.search))
    ∧ getItem (request (constEnv (.failure (.obj [("status", .num 401)]))
        (fun _ => none)) stTok "/blogs" {}).2.storage TOKEN_KEY = none
    ∧ (request (constEnv (.failure (.obj [("status", .num 401)]))
        (fun _ => none)) stTok "/blogs" {}).2.navigatedTo
        = some ("/login?next=" ++ encodeURIComponent (stTok.location.pathname ++ stTok.location.search)) :=
  c2_unauthorized_amended _ stTok "/orders" {}
    { status := 401, contentType := some "application/json", body := "denied" }
    (.obj [("message", .str "No")]) _ stTok "/blogs" {} (.obj [("status", .num 401)])
    rfl rfl rfl rfl rfl

/-- C3 counterexample: a 404 JSON body whose `message` field is present but
empty (falsy) is normalised to the generic string, not to the present field -
contradicting "the parsed body's message field when present". -/
theorem c3_counterexample :
    (request (constEnv (.success { status := 404, contentType := some "application/json", body := "m" })
        (fun _ => some (.obj [("message", .str "")]))) stTok "/x" {}).1
      = .error (.obj [("message", .str "An error occurred"), ("status", .num 404)])
    ∧ JSValue.str "An error occurred" ≠ .str "" :=
  ⟨rfl, by simp⟩

/-- C3 (amended): every non-success response whose body parsing succeeds makes
`request` fail with the normalised value `{ message, status }` where `status`
is the numeric HTTP status and `message` is the parsed body's `message` field
when present and truthy, else the parsed body itself when it is a string (the
raw text in the non-JSON fallback case), else `"An error occurred"`. -/
theorem c3_error_normalisation_amended (env : Env) (st : ClientState) (path : String)
    (opts : RequestOptions) (r : Response) (data : JSValue)
    (hf : env.fetch (buildUrl path opts.qs) (requestConfig st.storage opts) = .success r)
    (hp : parseResponse env r = .ok data)
    (hok : respOk r = false) :
    (request env st path opts).1
      = .error (.obj [("message", spec_errMessage data), ("status", .num r.status)]) := by
  rw [request_httpError env st path opts r data hf hp hok]
  simp [normMessage_eq_spec]

/-- Witness for the amended C3: a 404 with JSON body carrying
`message = "Not found"` fails with exactly that message and status 404. -/
theorem c3_error_normalisation_amended_witness :
    (request (constEnv (.success { status := 404, contentType := some "application/json", body := "nf" })
        (fun _ => some (.obj [("message", .str "Not found")]))) stTok "/products/x" {}).1
      = .error (.obj [("message", spec_errMessage (.obj [("message", .str "Not found")])),
          ("status", .num 404)]) :=
  c3_error_normalisation_amended _ stTok "/products/x" {}
    { status := 404, contentType := some "application/json", body := "nf" }
    (.obj [("message", .str "Not found")]) rfl rfl rfl

/-- C7 counterexample: after a login that stored token `tok`, a subsequent
request supplying its own `Authorization` header does not carry
`Bearer tok`; and a login whose response carries the empty-string token leaves
later requests without any `Authorization` header - contradicting "every
subsequent request automatically includes `Authorization: Bearer <token>`". -/
theorem c7_counterexample :
    getItem (login (constEnv (.success { status := 200, contentType := some "application/json", body := "b" })
        (fun _ => some (.obj [("token", .str "tok")]))) stEmpty "e" "p").2.storage TOKEN_KEY = some "tok"
    ∧ lookupH (requestHeaders
        (login (constEnv (.success { status := 200, contentType := some "application/json", body := "b" })
          (fun _ => some (.obj [("token", .str "tok")]))) stEmpty "e" "p").2.storage
        (some [("Authorization", "forged")])) "Authorization" = some "forged"
    ∧ ("forged" : String) ≠ "Bearer tok"
    ∧ getItem (login (constEnv (.success { status := 200, contentType := some "application/json", body := "b" })
        (fun _ => some (.obj [("token", .str "")]))) stEmpty "e" "p").2.storage TOKEN_KEY = some ""
    ∧ lookupH (requestHeaders
        (login (constEnv (.success { status := 200, contentType := some "application/json", body := "b" })
          (fun _ => some (.obj [("token", .str "")]))) stEmpty "e" "p").2.storage
        none) "Authorization" = none :=
  ⟨rfl, rfl, by decide, rfl, rfl⟩

/-- C7 (amended): a successful `login` whose parsed response carries a token
string persists it under the fixed key before returning, and - when the token
is non-empty - every subsequent request that does not itself supply an
`Authorization` header carries `Authorization: Bearer <token>`; `register`
persists its returned token the same way. -/
theorem c7_login_persists_token_amended (env : Env) (st : ClientState)
    (email password name : String) (r r2 : Response) (data data2 : JSValue)
    (t t2 : String) (caller : Option (List (String × String)))
    (hf : env.fetch (buildUrl "/auth/login" none)
        (requestConfig st.storage (loginOpts env email password)) = .success r)
    (hok : respOk r = true)
    (hp : parseResponse env r = .ok data)
    (ht : getProp data "token" = .str t)
    (hte : t ≠ "")
    (hnoAuth : lookupH (caller.getD []) "Authorization" = none)
    (hf2 : env.fetch (buildUrl "/auth/register" none)
        (requestConfig st.storage (registerOpts env name email password)) = .success r2)
    (hok2 : respOk r2 = true)
    (hp2 : parseResponse env r2 = .ok data2)
    (ht2 : getProp data2 "token" = .str t2) :
    (login env st email password).1 = .success data
    ∧ getItem (login env st email password).2.storage TOKEN_KEY = some t
    ∧ lookupH (requestHeaders (login env st email password).2.storage caller) "Authorization"
        = some ("Bearer " ++ t)
    ∧ getItem (register env st name email password).2.storage TOKEN_KEY = some t2 := by
  have hreq := request_ok env st "/auth/login" (loginOpts env email password) r data hf hp hok
  have hlogin : login env st email password
      = (.success data,
          { st with storage := setItem st.storage TOKEN_KEY (jsToString (getProp data "token")) }) := by
    simp only [login, hreq]
  have hstore : (login env st email password).2.storage = setItem st.storage TOKEN_KEY t := by
    rw [hlogin, ht]
    rfl
  refine ⟨?_, ?_, ?_, ?_⟩
  · rw [hlogin]
  · rw [hstore]
    exact lookupH_assocSet_self _ _ _
  · have htok : tokenOf ((login env st email password).2.storage) = some t := by
      rw [hstore]
      exact lookupH_assocSet_self _ _ _
    have hauth : getAuthHeaders ((login env st email password).2.storage)
        = [("Authorization", "Bearer " ++ t)] := by
      simp [getAuthHeaders, htok, hte]
    show lookupH (spread (spread [("Content-Type", "application/json")]
        (getAuthHeaders ((login env st email password).2.storage))) (caller.getD []))
        "Authorization" = some ("Bearer " ++ t)
    rw [lookupH_spread_none _ _ _ hnoAuth, hauth]
    rfl
  · have hreq2 := request_ok env st "/auth/register" (registerOpts env name email password)
      r2 data2 hf2 hp2 hok2
    have hreg : register env st name email password
        = (.success data2,
            { st with storage := setItem st.storage TOKEN_KEY (jsToString (getProp data2 "token")) }) := by
      simp only [register, hreq2]
    have hstore2 : (register env st name email password).2.storage
        = setItem st.storage TOKEN_KEY t2 := by
      rw [hreg, ht2]
      rfl
    rw [hstore2]
    exact lookupH_assocSet_self _ _ _

/-- Witness for the amended C7 at a token `tok` and no caller headers. -/
theorem c7_login_persists_token_amended_witness :
    (login (constEnv (.success { status := 200, contentType := some "application/json", body := "b" })
        (fun _ => some (.obj [("token", .str "tok")]))) stEmpty "e" "p").1
      = .success (.obj [("token", .str "tok")])
    ∧ getItem (login (constEnv (.success { status := 200, contentType := some "application/json", body := "b" })
        (fun _ => some (.obj [("token", .str "tok")]))) stEmpty "e" "p").2.storage TOKEN_KEY
      = some "tok"
    ∧ lookupH (requestHeaders
        (login (constEnv (.success { status := 200, contentType := some "application/json", body := "b" })
          (fun _ => some (.obj [("token", .str "tok")]))) stEmpty "e" "p").2.storage none)
        "Authorization" = some ("Bearer " ++ "tok")
    ∧ getItem (register (constEnv (.success { status := 200, contentType := some "application/json", body := "b" })
        (fun _ => some (.obj [("token", .str "tok")]))) stEmpty "n" "e" "p").2.storage TOKEN_KEY
      = some "tok" :=
  c7_login_persists_token_amended _ stEmpty "e" "p" "n"
    { status := 200, contentType := some "application/json", body := "b" }
    { status := 200, contentType := some "application/json", body := "b" }
    (.obj [("token", .str "tok")]) (.obj [("token", .str "tok")]) "tok" "tok" none
    rfl rfl rfl rfl (by decide) rfl rfl rfl rfl rfl
